import Mathlib

/-!
# Verification of the fastapi-hypermodel Siren resolution engine

Shallow embedding of `src/fastapi_hypermodel/siren.py` (and its duplicate
`src/fastapi_hypermodel/siren/siren_action.py`): the Siren link/action
descriptors, their resolution calls, the envelope-level validators of
`SirenHyperModel`, and the lookup helpers `get_siren_link` /
`get_siren_action`.

Python dynamic values are embedded as `PyValue` (with Python truthiness and
`str(...)` conversion), fallible code returns `Except String`, and the
in-place mutation performed by `SirenActionFor.__call__` on its private
attributes is embedded as explicit state passing: the call returns the
updated descriptor next to its output.

The helpers `resolve_param_values` and `get_route_from_app` live in
`fastapi_hypermodel/utils.py`, which is not part of the sources; they are
modelled from the spec (sections 4.1 and 4.2), as is Starlette's
`url_path_for`.
-/

/-- A Python value as it occurs in a Siren values context or a field default:
`None`, a bool, an integer, a string, or a nested string-keyed mapping. -/
inductive PyValue where
  | none : PyValue
  | bool : Bool → PyValue
  | int : Int → PyValue
  | str : String → PyValue
  | dict : List (String × PyValue) → PyValue
deriving Repr

/-- Python truthiness: `None`, `False`, `0`, `""` and `{}` are falsy. -/
def pyTruthy : PyValue → Bool
  | .none => false
  | .bool b => b
  | .int n => n ≠ 0
  | .str s => s ≠ ""
  | .dict d => ¬ d.isEmpty

/-- Python `str(...)` on the embedded values (`str(None) = "None"`,
`str(True) = "True"`, integers in decimal, strings unchanged). -/
def pyStr : PyValue → String
  | .none => "None"
  | .bool b => if b then "True" else "False"
  | .int n => toString n
  | .str s => s
  | .dict _ => "\x7b...\x7d"

/-- Python `x or y`: `x` when truthy, else `y`. -/
def pyOr (x y : PyValue) : PyValue :=
  if pyTruthy x then x else y

/-- The values context handed to a resolution call: the model instance's
attribute map (`Mapping[str, Any]`), embedded as an association list. -/
def ValuesContext : Type := List (String × PyValue)

/-- Python `values.get(key)` on a context: first entry with the key, else `None`
(Python `dict.get` returns `None` when absent). -/
def ctxGet (values : ValuesContext) (key : String) : PyValue :=
  match List.lookup key values with
  | some v => v
  | Option.none => PyValue.none

/-- Whether the context has an entry under `key`. -/
def ctxHas (values : ValuesContext) (key : String) : Bool :=
  (List.lookup key values).isSome

/-- One component of a route's path template: a literal segment or a
`\x7bname\x7d` parameter placeholder. -/
inductive PathPart where
  | lit : String → PathPart
  | param : String → PathPart
deriving Repr, DecidableEq

/-- A declared request-body schema field as the engine reads it off a
pydantic `FieldInfo`: its name, the `repr` of its declared type, and its
default value. -/
structure SchemaField where
  name : String
  typeRepr : String
  default : PyValue
deriving Repr

/-- Modelled from the spec (section 4.1, `fastapi_hypermodel/utils.py` and
the FastAPI route objects are outside the sources): a route descriptor,
looked up by name, carrying the path template, the allowed HTTP methods and
the optional request-body schema. -/
structure Route where
  name : String
  path : List PathPart
  methods : List String
  bodySchema : Option (List SchemaField)
deriving Repr

/-- A route's raw path string, `\x7bname\x7d`-style placeholders preserved. -/
def Route.rawPath (r : Route) : String :=
  r.path.foldr
    (fun part acc =>
      (match part with
       | .lit s => s
       | .param n => "\x7b" ++ n ++ "\x7d") ++ acc)
    ""

/-- Modelled from the spec (section 4.1): the application's frozen route
table. -/
structure App where
  routes : List Route

/-- Modelled from the spec (section 4.1, `get_route_from_app` in
`fastapi_hypermodel/utils.py` is outside the sources): look the endpoint
name up in the route table; absence is an error (`UnknownRouteError`), not a
default. -/
def get_route_from_app (app : App) (endpoint : String) : Except String Route :=
  match app.routes.find? (fun r => r.name = endpoint) with
  | some r => Except.ok r
  | Option.none => Except.error "UnknownRouteError"

/-- One parameter template entry: a template string with zero placeholders
(passed through literally) or one `<attributeName>` placeholder. -/
inductive ParamTemplate where
  | literal : String → ParamTemplate
  | placeholder : String → ParamTemplate
deriving Repr, DecidableEq

/-- Modelled from the spec (section 4.2, `resolve_param_values` in
`fastapi_hypermodel/utils.py` is outside the sources): produce a concrete
parameter mapping by substituting each placeholder's named attribute from
the values context; a template with no placeholder passes through; a
missing attribute fails with `MissingAttributeError`. Pure. -/
def resolve_param_values (paramTemplates : List (String × ParamTemplate))
    (values : ValuesContext) : Except String (List (String × String)) :=
  paramTemplates.mapM (fun kv =>
    match kv.2 with
    | .literal s => Except.ok (kv.1, s)
    | .placeholder attr =>
      match List.lookup attr values with
      | some v => Except.ok (kv.1, pyStr v)
      | Option.none => Except.error ("MissingAttributeError: " ++ attr))

/-- Modelled from the spec (Starlette's `url_path_for` is an external
collaborator): build the concrete path for a route by substituting the
resolved parameters into the path template; a placeholder with no matching
parameter is an error. -/
def url_path_for (app : App) (endpoint : String)
    (params : List (String × String)) : Except String String := do
  let route ← get_route_from_app app endpoint
  route.path.foldrM
    (fun part acc =>
      match part with
      | .lit s => Except.ok (s ++ acc)
      | .param n =>
        match List.lookup n params with
        | some v => Except.ok (v ++ acc)
        | Option.none => Except.error ("NoMatchFound: " ++ n))
    ""

/-- Source `class SirenBase`: the optional `class` and `title` members shared by
every Siren object. -/
structure SirenBase where
  class_ : Option (List String) := Option.none
  title : Option String := Option.none
deriving Repr

/-- Source `class SirenLinkType(SirenBase)`: a resolved Siren link. -/
structure SirenLinkType extends SirenBase where
  rel : List String := []
  href : String := ""
  type_ : Option String := Option.none
deriving Repr

/-- The `mandatory` field validator of `SirenLinkType`, applied by
`model_validate` to the provided `rel` and `href`: a falsy value (empty
sequence / empty string) is rejected. -/
def SirenLinkType.model_validate (class_ : Option (List String))
    (title : Option String) (rel : List String) (href : String)
    (type_ : Option String) : Except String SirenLinkType :=
  if rel = [] ∨ href = "" then
    Except.error "Field rel and href are mandatory"
  else
    Except.ok { class_ := class_, title := title, rel := rel, href := href,
                type_ := type_ }

/-- Source `class SirenFieldType(SirenBase)`: one form field of a Siren action. -/
structure SirenFieldType extends SirenBase where
  name : String
  type_ : Option String := Option.none
  value : PyValue := PyValue.none
deriving Repr

/-- Whether `pat` occurs at the start of `s` (on character lists). -/
def startsWithChars : List Char → List Char → Bool
  | [], _ => true
  | _ :: _, [] => false
  | p :: ps, c :: cs => p = c && startsWithChars ps cs

/-- Whether `pat` occurs somewhere inside `s` (on character lists). -/
def hasSubChars (pat : List Char) : List Char → Bool
  | [] => pat.isEmpty
  | c :: cs => startsWithChars pat (c :: cs) || hasSubChars pat cs

/-- Python's `pat in s` on strings: substring containment. -/
def strContains (s pat : String) : Bool :=
  hasSubChars pat.data s.data

/-- Source `SirenFieldType.parse_type`: classify a declared python type by
substring tests on its `repr` — `"str"` anywhere means `text`, else
`"float"` or `"int"` anywhere means `number`, else `text`. -/
def parse_type (typeRepr : String) : String :=
  if strContains typeRepr "str" then "text"
  else if strContains typeRepr "float" || strContains typeRepr "int" then
    "number"
  else "text"

/-- Source `SirenFieldType.from_field_info`: synthesize a form field from a
request-body schema field — name copied, type classified by `parse_type`,
value initialized to the schema default. -/
def SirenFieldType.from_field_info (name : String) (fieldInfo : SchemaField) :
    SirenFieldType :=
  { name := name, type_ := some (parse_type fieldInfo.typeRepr),
    value := fieldInfo.default }

/-- Source `class SirenActionType(SirenBase)`: a resolved Siren action. -/
structure SirenActionType extends SirenBase where
  name : String := ""
  method : String := "GET"
  href : String := ""
  type_ : Option String := Option.none
  fields : Option (List SirenFieldType) := Option.none
  templated : Bool := false
deriving Repr

/-- Source `SirenActionType.model_validate` with the `mandatory` validator on
`name` and `href` (falsy values rejected); the `method` key is typed
`str`, so a `None` method is a validation error as well. -/
def SirenActionType.model_validate (class_ : Option (List String))
    (title : Option String) (name : String) (method : Option String)
    (href : String) (type_ : Option String)
    (fields : Option (List SirenFieldType)) (templated : Bool) :
    Except String SirenActionType :=
  if name = "" ∨ href = "" then
    Except.error "Field name and href are mandatory"
  else
    match method with
    | some m =>
      Except.ok { class_ := class_, title := title, name := name,
                  method := m, href := href, type_ := type_,
                  fields := fields, templated := templated }
    | Option.none => Except.error "method: Input should be a valid string"

example : parse_type "str" = "text" := by decide
example : parse_type "float" = "number" := by decide
example : parse_type "bool" = "text" := by decide
example : parse_type "typing.Optional[str]" = "text" := by decide
example : parse_type "int" = "number" := by decide

/-- Python truthiness of an optional string (`None` and `""` are falsy),
used for the `if not self._method` / `if not self._type` tests. -/
def optStrFalsy : Option String → Bool
  | Option.none => true
  | some s => s = ""

/-- Source `class SirenLinkFor(SirenLinkType, AbstractHyperField)`: the static link
descriptor, holding the private attributes set by `__init__` (with
`self._param_values = param_values or \x7b\x7d` and `self._rel = rel or []`
already applied). -/
structure SirenLinkFor where
  endpoint : String
  param_values : List (String × ParamTemplate) := []
  templated : Bool := false
  condition : Option (ValuesContext → Bool) := Option.none
  title : Option String := Option.none
  type_ : Option String := Option.none
  rel : List String := []
  class_ : Option (List String) := Option.none

/-- Python `values.get("properties", values)` in `SirenLinkFor.__call__`: narrow
the context to its `properties` sub-mapping when one is present. (A
non-mapping `properties` entry could not serve as a context; the engine
never produces one, since reserved keys are stripped from `properties`.) -/
def narrowToProperties (values : ValuesContext) : ValuesContext :=
  match List.lookup "properties" values with
  | some (PyValue.dict d) => d
  | _ => values

/-- Source `SirenLinkFor._get_uri_path`: the raw route path when `templated`, else
parameter resolution followed by Starlette path building. -/
def SirenLinkFor.get_uri_path (self : SirenLinkFor) (app : App)
    (values : ValuesContext) (route : Route) : Except String String :=
  if self.templated then Except.ok route.rawPath
  else do
    let params ← resolve_param_values self.param_values values
    url_path_for app self.endpoint params

/-- Source `SirenLinkFor.__call__`: no app registered yields no output; a false
condition yields no output; otherwise route lookup, context narrowing, URI
building and validated construction of the resolved link (the `Except`
binds written as explicit matches). -/
def SirenLinkFor.call (self : SirenLinkFor) (app : Option App)
    (values : ValuesContext) : Except String (Option SirenLinkType) :=
  match app with
  | Option.none => Except.ok Option.none
  | some app =>
    if (match self.condition with
        | some cond => ! cond values
        | Option.none => false) then
      Except.ok Option.none
    else
      match get_route_from_app app self.endpoint with
      | Except.error e => Except.error e
      | Except.ok route =>
        match self.get_uri_path app (narrowToProperties values) route with
        | Except.error e => Except.error e
        | Except.ok uri_path =>
          match SirenLinkType.model_validate self.class_ self.title self.rel
              uri_path self.type_ with
          | Except.error e => Except.error e
          | Except.ok link => Except.ok (some link)

/-- Source `class SirenActionFor(SirenActionType, AbstractHyperField)`: the static
action descriptor with its private attributes (`self._fields = fields or []`
already applied; `_name` defaults to `""`). `SirenActionFor.__call__`
mutates `_method`, `_fields` and `_type` in place, so the call below
returns the updated descriptor alongside its output. -/
structure SirenActionFor where
  endpoint : String
  param_values : List (String × ParamTemplate) := []
  templated : Bool := false
  condition : Option (ValuesContext → Bool) := Option.none
  populate_fields : Bool := true
  class_ : Option (List String) := Option.none
  title : Option String := Option.none
  name : String := ""
  method : Option String := Option.none
  type_ : Option String := Option.none
  fields : List SirenFieldType := []

/-- Source `SirenActionFor._get_uri_path`: the raw route path when `templated`,
else parameter resolution followed by Starlette path building. -/
def SirenActionFor.get_uri_path (self : SirenActionFor) (app : App)
    (values : ValuesContext) (route : Route) : Except String String :=
  if self.templated then Except.ok route.rawPath
  else do
    let params ← resolve_param_values self.param_values values
    url_path_for app self.endpoint params

/-- Source `SirenActionFor._prepopulate_fields`: when `_populate_fields` is set,
each field's value becomes `str(values.get(field.name) or field.value)`. -/
def SirenActionFor.prepopulate_fields (self : SirenActionFor)
    (fields : List SirenFieldType) (values : ValuesContext) :
    List SirenFieldType :=
  if ! self.populate_fields then fields
  else
    fields.map (fun field =>
      { field with
        value := PyValue.str (pyStr (pyOr (ctxGet values field.name)
          field.value)) })

/-- Source `SirenActionFor._compute_fields`: no request-body schema means no
fields; otherwise synthesize one field per schema entry via
`from_field_info` and pre-populate them. -/
def SirenActionFor.compute_fields (self : SirenActionFor) (route : Route)
    (values : ValuesContext) : List SirenFieldType :=
  match route.bodySchema with
  | Option.none => []
  | some schema =>
    self.prepopulate_fields
      (schema.map (fun f => SirenFieldType.from_field_info f.name f)) values

/-- Source `if not self._method: self._method = next(iter(route.methods or \x7b\x7d),
None)` — the in-place defaulting of `_method` in
`SirenActionFor.__call__`. -/
def SirenActionFor.default_method (self : SirenActionFor) (route : Route) :
    SirenActionFor :=
  if optStrFalsy self.method then { self with method := route.methods.head? }
  else self

/-- Source `if not self._fields: self._fields = self._compute_fields(route, values)`
— the in-place computation of `_fields` in `SirenActionFor.__call__`. -/
def SirenActionFor.default_fields (self : SirenActionFor) (route : Route)
    (values : ValuesContext) : SirenActionFor :=
  if self.fields.isEmpty then
    { self with fields := self.compute_fields route values }
  else self

/-- Source `if not self._type and self._fields: self._type =
"application/x-www-form-urlencoded"` — the in-place media-type inference in
`SirenActionFor.__call__`. -/
def SirenActionFor.default_type (self : SirenActionFor) : SirenActionFor :=
  if optStrFalsy self.type_ && ! self.fields.isEmpty then
    { self with type_ := some "application/x-www-form-urlencoded" }
  else self

/-- Source `SirenActionFor.__call__`: no app or a false condition yields no output;
otherwise route lookup, the in-place defaulting of `_method`, URI building,
the in-place computation of `_fields`, the in-place media-type inference
for `_type`, and validated construction. The returned descriptor carries
the mutations (the `Except` binds written as explicit matches). -/
def SirenActionFor.call (self : SirenActionFor) (app : Option App)
    (values : ValuesContext) :
    Except String (Option SirenActionType × SirenActionFor) :=
  match app with
  | Option.none => Except.ok (Option.none, self)
  | some app =>
    if (match self.condition with
        | some cond => ! cond values
        | Option.none => false) then
      Except.ok (Option.none, self)
    else
      match get_route_from_app app self.endpoint with
      | Except.error e => Except.error e
      | Except.ok route =>
        let s1 := self.default_method route
        match s1.get_uri_path app values route with
        | Except.error e => Except.error e
        | Except.ok uri_path =>
          let s2 := (s1.default_fields route values).default_type
          match SirenActionType.model_validate s2.class_ s2.title s2.name
              s2.method uri_path s2.type_ (some s2.fields) s2.templated with
          | Except.error e => Except.error e
          | Except.ok action => Except.ok (some action, s2)

/-- Source `SirenHyperModel._validate_factory` on the `links` sequence: invoke each
factory with the app and the `properties` bag, dropping the falsy (`None`)
results. -/
def validate_factory_links (app : Option App) (properties : ValuesContext) :
    List SirenLinkFor → Except String (List SirenLinkType)
  | [] => Except.ok []
  | l :: rest =>
    match l.call app properties with
    | Except.error e => Except.error e
    | Except.ok element =>
      match validate_factory_links app properties rest with
      | Except.error e => Except.error e
      | Except.ok tail =>
        match element with
        | Option.none => Except.ok tail
        | some link => Except.ok (link :: tail)

/-- Source `SirenHyperModel._validate_factory` on the `actions` sequence, with the
mutation each `SirenActionFor.__call__` performs on its descriptor made
explicit: returns the resolved actions and the updated descriptors. -/
def validate_factory_actions (app : Option App) (properties : ValuesContext) :
    List SirenActionFor →
    Except String (List SirenActionType × List SirenActionFor)
  | [] => Except.ok ([], [])
  | a :: rest =>
    match a.call app properties with
    | Except.error e => Except.error e
    | Except.ok (element, a2) =>
      match validate_factory_actions app properties rest with
      | Except.error e => Except.error e
      | Except.ok (tail, rest2) =>
        match element with
        | Option.none => Except.ok (tail, a2 :: rest2)
        | some act => Except.ok (act :: tail, a2 :: rest2)

/-- Source `SirenHyperModel.validate_has_self_link`: an empty link list passes;
otherwise some link must have `rel == ["self"]`. -/
def validate_has_self_link (links : List SirenLinkType) :
    Except String Unit :=
  if links.isEmpty then Except.ok ()
  else if links.any (fun link => link.rel == ["self"]) then Except.ok ()
  else
    Except.error "If links are present, a link with rel self must be present"

/-- A `SirenHyperModel` instance as it stands after the `add_properties`
validator: its `properties` bag and its declared link and action
descriptors. -/
structure SirenModelDecl where
  properties : ValuesContext := []
  links : List SirenLinkFor := []
  actions : List SirenActionFor := []

/-- The assembled Siren envelope for one model instance. -/
structure SirenEnvelope where
  properties : ValuesContext
  links : List SirenLinkType
  actions : List SirenActionType

/-- The `add_links` and `add_actions` validators of `SirenHyperModel`:
resolve the declared links against `properties` (running the self-link
check on the result) and then the declared actions; the returned model
carries the action descriptors as mutated by their calls. -/
def SirenModelDecl.resolve (m : SirenModelDecl) (app : Option App) :
    Except String (SirenEnvelope × SirenModelDecl) :=
  match validate_factory_links app m.properties m.links with
  | Except.error e => Except.error e
  | Except.ok links =>
    match validate_has_self_link links with
    | Except.error e => Except.error e
    | Except.ok _ =>
      match validate_factory_actions app m.properties m.actions with
      | Except.error e => Except.error e
      | Except.ok (actions, actionsAfter) =>
        Except.ok
          ({ properties := m.properties, links := links, actions := actions },
           { m with actions := actionsAfter })

/-- A JSON value, the target of the `model_serializer` methods. The bytes a
`JSONResponse` sends are a function of this value, so equal `Json` values
mean byte-identical responses. -/
inductive Json where
  | null : Json
  | bool : Bool → Json
  | num : Int → Json
  | str : String → Json
  | arr : List Json → Json
  | obj : List (String × Json) → Json
deriving Repr

mutual

/-- JSON encoding of an embedded Python value. -/
def PyValue.toJson : PyValue → Json
  | .none => Json.null
  | .bool b => Json.bool b
  | .int n => Json.num n
  | .str s => Json.str s
  | .dict d => Json.obj (pyDictToJson d)

/-- JSON encoding of a string-keyed Python mapping. -/
def pyDictToJson : List (String × PyValue) → List (String × Json)
  | [] => []
  | (k, v) :: rest => (k, v.toJson) :: pyDictToJson rest

end

/-- Serialize an optional `class` list, dropped when falsy (`None` / `[]`),
as `SirenBase.serialize` does. -/
def optListEntry (key : String) (v : Option (List String)) :
    List (String × Json) :=
  match v with
  | some l => if l.isEmpty then [] else [(key, Json.arr (l.map Json.str))]
  | Option.none => []

/-- Serialize an optional string entry, dropped when falsy (`None` / `""`). -/
def optStrEntry (key : String) (v : Option String) : List (String × Json) :=
  match v with
  | some s => if s = "" then [] else [(key, Json.str s)]
  | Option.none => []

/-- Source `SirenBase.serialize` on a resolved link: every field keyed by its
alias, falsy values dropped, in `model_fields` order. -/
def SirenLinkType.serialize (l : SirenLinkType) : Json :=
  Json.obj (optListEntry "class" l.class_ ++ optStrEntry "title" l.title ++
    (if l.rel.isEmpty then [] else [("rel", Json.arr (l.rel.map Json.str))]) ++
    (if l.href = "" then [] else [("href", Json.str l.href)]) ++
    optStrEntry "type" l.type_)

/-- Source `SirenBase.serialize` on a form field: falsy values dropped. -/
def SirenFieldType.serialize (f : SirenFieldType) : Json :=
  Json.obj (optListEntry "class" f.class_ ++ optStrEntry "title" f.title ++
    (if f.name = "" then [] else [("name", Json.str f.name)]) ++
    optStrEntry "type" f.type_ ++
    (if pyTruthy f.value then [("value", f.value.toJson)] else []))

/-- Source `SirenBase.serialize` on a resolved action: falsy values dropped (in
particular `templated = False` and an empty `fields` list are absent). -/
def SirenActionType.serialize (a : SirenActionType) : Json :=
  Json.obj (optListEntry "class" a.class_ ++ optStrEntry "title" a.title ++
    (if a.name = "" then [] else [("name", Json.str a.name)]) ++
    (if a.method = "" then [] else [("method", Json.str a.method)]) ++
    (if a.href = "" then [] else [("href", Json.str a.href)]) ++
    optStrEntry "type" a.type_ ++
    (match a.fields with
     | some fs =>
       if fs.isEmpty then []
       else [("fields", Json.arr (fs.map SirenFieldType.serialize))]
     | Option.none => []) ++
    (if a.templated then [("templated", Json.bool true)] else []))

/-- Source `SirenHyperModel.serialize`: the envelope keyed by field aliases, falsy
values dropped, in `model_fields` order. -/
def SirenEnvelope.serialize (e : SirenEnvelope) : Json :=
  Json.obj (
    (if e.properties.isEmpty then []
     else [("properties", Json.obj (pyDictToJson e.properties))]) ++
    (if e.links.isEmpty then []
     else [("links", Json.arr (e.links.map SirenLinkType.serialize))]) ++
    (if e.actions.isEmpty then []
     else [("actions", Json.arr (e.actions.map SirenActionType.serialize))]))

/-- Source `get_siren_link`: first link of the response whose `rel` list contains
the name (list membership), re-validated via `model_validate`. -/
def get_siren_link (links : List SirenLinkType) (link_name : String) :
    Except String (Option SirenLinkType) :=
  match links.find? (fun link => link.rel.contains link_name) with
  | Option.none => Except.ok Option.none
  | some link =>
    (SirenLinkType.model_validate link.class_ link.title link.rel link.href
      link.type_).map some

/-- Source `get_siren_action`: first action of the response whose `name` contains
the query as a substring (Python `action_name in action.get("name")`),
re-validated via `model_validate`. -/
def get_siren_action (actions : List SirenActionType) (action_name : String) :
    Except String (Option SirenActionType) :=
  match actions.find? (fun action => strContains action.name action_name) with
  | Option.none => Except.ok Option.none
  | some action =>
    (SirenActionType.model_validate action.class_ action.title action.name
      (some action.method) action.href action.type_ action.fields
      action.templated).map some

/-! ## Concrete fixtures (mirroring the test application's routes) -/

/-- A small application: a people collection, a person endpoint with a path
parameter, and an item-creation endpoint whose body schema is
`\x7bname: str, price: float\x7d`. -/
def egApp : App :=
  { routes :=
    [ { name := "read_people", path := [PathPart.lit "/people"],
        methods := ["GET"], bodySchema := Option.none },
      { name := "read_person",
        path := [PathPart.lit "/people/", PathPart.param "id_"],
        methods := ["GET"], bodySchema := Option.none },
      { name := "create_item", path := [PathPart.lit "/items"],
        methods := ["POST"],
        bodySchema := some [⟨"name", "str", PyValue.none⟩,
                            ⟨"price", "float", PyValue.none⟩] } ] }

/-- A self link on the people collection. -/
def egSelfLink : SirenLinkFor := { endpoint := "read_people", rel := ["self"] }

/-- An action with no explicit fields, method or type, targeting the
item-creation endpoint. -/
def egCreateAction : SirenActionFor :=
  { endpoint := "create_item", name := "create" }

/-- A templated action on the person endpoint. -/
def egFindAction : SirenActionFor :=
  { endpoint := "read_person", name := "find", templated := true }

/-! ## General helper lemmas -/

/-- Helper: `List.find?` returns the first element satisfying the predicate: the
list splits around the hit and everything before it fails the predicate. -/
theorem find?_first {α : Type} (p : α → Bool) :
    ∀ (l : List α) (a : α), l.find? p = some a →
      p a = true ∧
      ∃ pre post, l = pre ++ a :: post ∧ ∀ b ∈ pre, p b = false := by
  intro l
  induction l with
  | nil => intro a h; cases h
  | cons x xs ih =>
    intro a h
    by_cases hp : p x
    · rw [List.find?_cons_of_pos _ hp] at h
      cases h
      exact ⟨hp, [], xs, rfl, by intro b hb; cases hb⟩
    · rw [List.find?_cons_of_neg _ (by simpa using hp)] at h
      obtain ⟨hpa, pre, post, hsplit, hpre⟩ := ih a h
      refine ⟨hpa, x :: pre, post, by rw [hsplit]; rfl, ?_⟩
      intro b hb
      cases hb with
      | head => simpa using hp
      | tail _ hb => exact hpre _ hb

/-! ## C10 -/

/-- C10: invoking link or action resolution with no application registered
(`app is None`) returns no output instead of raising, regardless of
condition, endpoint or parameters, and the factory validator therefore
omits every link/action from the envelope. -/
theorem C10_no_app_silently_omits :
    (∀ (d : SirenLinkFor) (values : ValuesContext),
       d.call Option.none values = Except.ok Option.none) ∧
    (∀ (d : SirenActionFor) (values : ValuesContext),
       d.call Option.none values = Except.ok (Option.none, d)) ∧
    (∀ (links : List SirenLinkFor) (props : ValuesContext),
       validate_factory_links Option.none props links = Except.ok []) ∧
    (∀ (acts : List SirenActionFor) (props : ValuesContext),
       validate_factory_actions Option.none props acts =
         Except.ok ([], acts)) := by
  refine ⟨fun d values => rfl, fun d values => rfl, ?_, ?_⟩
  · intro links props
    induction links with
    | nil => rfl
    | cons l rest ih => simp [validate_factory_links, SirenLinkFor.call, ih]
  · intro acts props
    induction acts with
    | nil => rfl
    | cons a rest ih => simp [validate_factory_actions, SirenActionFor.call, ih]

/-- Re-running `model_validate` on an already-resolved action returns it
unchanged when its mandatory fields are non-empty. -/
theorem SirenActionType.model_validate_self (a : SirenActionType)
    (hn : a.name ≠ "") (hh : a.href ≠ "") :
    SirenActionType.model_validate a.class_ a.title a.name (some a.method)
      a.href a.type_ a.fields a.templated = Except.ok a := by
  obtain ⟨⟨c, t⟩, n, m, h, ty, f, tm⟩ := a
  simp only [SirenActionType.model_validate]
  rw [if_neg (by rintro (h1 | h1) <;> simp_all)]

/-- Whatever `model_validate` returns on an action's own components is that
action itself. -/
theorem SirenActionType.model_validate_self_inv (a x : SirenActionType)
    (h : SirenActionType.model_validate a.class_ a.title a.name
      (some a.method) a.href a.type_ a.fields a.templated = Except.ok x) :
    x = a := by
  obtain ⟨⟨c, t⟩, n, m, hr, ty, f, tm⟩ := a
  unfold SirenActionType.model_validate at h
  split at h
  · cases h
  · injection h with h2
    exact h2.symm

/-- A resolved action used by the lookup-helper theorems: its name strictly
contains the query `"update"`. -/
def egUpdateAction : SirenActionType :=
  { name := "update_person", method := "PUT", href := "/people/person01" }

/-! ## C9 -/

/-- C9: `get_siren_action` matches by substring, not equality — it returns
the first action of the response whose name contains the query as a
substring, yields no result exactly when no action name contains the query,
and a query can match an action whose name differs from it. -/
theorem C9_get_siren_action_substring :
    (∀ (actions : List SirenActionType) (q : String),
       get_siren_action actions q = Except.ok Option.none ↔
         ∀ a ∈ actions, strContains a.name q = false) ∧
    (∀ (actions : List SirenActionType) (q : String) (a : SirenActionType),
       get_siren_action actions q = Except.ok (some a) →
         strContains a.name q = true ∧
         ∃ pre post, actions = pre ++ a :: post ∧
           ∀ b ∈ pre, strContains b.name q = false) ∧
    get_siren_action [egUpdateAction] "update" =
      Except.ok (some egUpdateAction) ∧
    egUpdateAction.name ≠ "update" := by
  refine ⟨?_, ?_, by rfl, by decide⟩
  · intro actions q
    unfold get_siren_action
    cases hf : actions.find? (fun action => strContains action.name q) with
    | none =>
      dsimp only
      constructor
      · intro _ a ha
        simpa using List.find?_eq_none.mp hf a ha
      · intro _; rfl
    | some a0 =>
      dsimp only
      have hp := List.find?_some hf
      have hmem := List.mem_of_find?_eq_some hf
      constructor
      · intro h
        exfalso
        cases hv : SirenActionType.model_validate a0.class_ a0.title a0.name
            (some a0.method) a0.href a0.type_ a0.fields a0.templated with
        | error e => rw [hv] at h; simp [Except.map] at h
        | ok x => rw [hv] at h; simp [Except.map] at h
      · intro h
        exact absurd hp (by simpa using h a0 hmem)
  · intro actions q a h
    unfold get_siren_action at h
    cases hf : actions.find? (fun action => strContains action.name q) with
    | none => rw [hf] at h; cases h
    | some a0 =>
      rw [hf] at h
      dsimp only at h
      cases hv : SirenActionType.model_validate a0.class_ a0.title a0.name
          (some a0.method) a0.href a0.type_ a0.fields a0.templated with
      | error e => rw [hv] at h; simp [Except.map] at h
      | ok x =>
        rw [hv] at h
        simp only [Except.map] at h
        have hx : x = a0 := SirenActionType.model_validate_self_inv a0 x hv
        have hax : a = a0 := by
          rw [hx] at h
          injection h with h2
          injection h2 with h3
          exact h3.symm
        subst hax
        exact find?_first _ actions a hf

/-! ## Inversion lemmas for the resolution calls -/

/-- Inverting a successful link construction: the mandatory fields were
non-empty and the result carries exactly the given components. -/
theorem link_model_validate_ok (c : Option (List String))
    (t : Option String) (r : List String) (hr : String) (ty : Option String)
    (l : SirenLinkType)
    (h : SirenLinkType.model_validate c t r hr ty = Except.ok l) :
    r ≠ [] ∧ hr ≠ "" ∧
      l = { class_ := c, title := t, rel := r, href := hr, type_ := ty } := by
  unfold SirenLinkType.model_validate at h
  split at h
  · cases h
  · next hcond =>
    push_neg at hcond
    injection h with h2
    exact ⟨hcond.1, hcond.2, h2.symm⟩

/-- Inverting a successful action construction: the mandatory fields were
non-empty, the method was present, and the result carries exactly the given
components. -/
theorem action_model_validate_ok (c : Option (List String))
    (t : Option String) (n : String) (m : Option String) (hr : String)
    (ty : Option String) (f : Option (List SirenFieldType)) (tm : Bool)
    (a : SirenActionType)
    (h : SirenActionType.model_validate c t n m hr ty f tm = Except.ok a) :
    n ≠ "" ∧ hr ≠ "" ∧ ∃ mv, m = some mv ∧
      a = { class_ := c, title := t, name := n, method := mv, href := hr,
            type_ := ty, fields := f, templated := tm } := by
  unfold SirenActionType.model_validate at h
  split at h
  · cases h
  · next hcond =>
    push_neg at hcond
    cases m with
    | none => cases h
    | some mv =>
      injection h with h2
      exact ⟨hcond.1, hcond.2, mv, rfl, h2.symm⟩

/-- Case analysis on a successful `SirenLinkFor.__call__` with a registered
app: either the condition vetoed the link, or the route was found, the URI
built from the narrowed context, and the link validated. -/
theorem linkCall_ok_cases (d : SirenLinkFor) (app : App)
    (values : ValuesContext) (out : Option SirenLinkType)
    (h : d.call (some app) values = Except.ok out) :
    (out = Option.none ∧
       ∃ cond, d.condition = some cond ∧ cond values = false) ∨
    ((match d.condition with
      | some cond => cond values = true
      | Option.none => True) ∧
     ∃ route uri l, out = some l ∧
       get_route_from_app app d.endpoint = Except.ok route ∧
       d.get_uri_path app (narrowToProperties values) route = Except.ok uri ∧
       SirenLinkType.model_validate d.class_ d.title d.rel uri d.type_ =
         Except.ok l) := by
  unfold SirenLinkFor.call at h
  split at h
  · next happ => cases happ
  · next appv happ =>
    injection happ with happ2
    subst happ2
    split at h
    · next hcond =>
      cases hc : d.condition with
      | none => rw [hc] at hcond; cases hcond
      | some cond =>
        rw [hc] at hcond
        injection h with h2
        refine Or.inl ⟨h2.symm, cond, rfl, ?_⟩
        simpa using hcond
    · next hcond =>
      have hcondTrue : (match d.condition with
          | some cond => cond values = true
          | Option.none => True) := by
        cases hc : d.condition with
        | none => trivial
        | some cond =>
          rw [hc] at hcond
          simpa using hcond
      cases hr : get_route_from_app app d.endpoint with
      | error e => rw [hr] at h; cases h
      | ok route =>
        rw [hr] at h
        dsimp only at h
        cases hu : d.get_uri_path app (narrowToProperties values) route with
        | error e => rw [hu] at h; cases h
        | ok uri =>
          rw [hu] at h
          dsimp only at h
          cases hv : SirenLinkType.model_validate d.class_ d.title d.rel uri
              d.type_ with
          | error e => rw [hv] at h; cases h
          | ok link =>
            rw [hv] at h
            injection h with h2
            exact Or.inr ⟨hcondTrue, route, uri, link, h2.symm, rfl, hu, hv⟩

/-- Case analysis on a successful `SirenActionFor.__call__` with a
registered app: either the condition vetoed the action (descriptor
unchanged), or the route was found, the descriptor went through the three
in-place defaulting steps, the URI was built and the action validated. -/
theorem actionCall_ok_cases (d : SirenActionFor) (app : App)
    (values : ValuesContext) (out : Option SirenActionType)
    (d2 : SirenActionFor)
    (h : d.call (some app) values = Except.ok (out, d2)) :
    (out = Option.none ∧ d2 = d ∧
       ∃ cond, d.condition = some cond ∧ cond values = false) ∨
    ((match d.condition with
      | some cond => cond values = true
      | Option.none => True) ∧
     ∃ route uri a, out = some a ∧
       get_route_from_app app d.endpoint = Except.ok route ∧
       (d.default_method route).get_uri_path app values route =
         Except.ok uri ∧
       d2 = ((d.default_method route).default_fields route values).default_type ∧
       SirenActionType.model_validate d2.class_ d2.title d2.name d2.method
         uri d2.type_ (some d2.fields) d2.templated = Except.ok a) := by
  unfold SirenActionFor.call at h
  split at h
  · next happ => cases happ
  · next appv happ =>
    injection happ with happ2
    subst happ2
    split at h
    · next hcond =>
      cases hc : d.condition with
      | none => rw [hc] at hcond; cases hcond
      | some cond =>
        rw [hc] at hcond
        injection h with h2
        injection h2 with hout hd2
        refine Or.inl ⟨hout.symm, hd2.symm, cond, rfl, ?_⟩
        simpa using hcond
    · next hcond =>
      have hcondTrue : (match d.condition with
          | some cond => cond values = true
          | Option.none => True) := by
        cases hc : d.condition with
        | none => trivial
        | some cond =>
          rw [hc] at hcond
          simpa using hcond
      cases hr : get_route_from_app app d.endpoint with
      | error e => rw [hr] at h; cases h
      | ok route =>
        rw [hr] at h
        dsimp only at h
        cases hu : (d.default_method route).get_uri_path app values route with
        | error e => rw [hu] at h; cases h
        | ok uri =>
          rw [hu] at h
          dsimp only at h
          cases hv : SirenActionType.model_validate
              (((d.default_method route).default_fields route values).default_type).class_
              (((d.default_method route).default_fields route values).default_type).title
              (((d.default_method route).default_fields route values).default_type).name
              (((d.default_method route).default_fields route values).default_type).method
              uri
              (((d.default_method route).default_fields route values).default_type).type_
              (some (((d.default_method route).default_fields route values).default_type).fields)
              (((d.default_method route).default_fields route values).default_type).templated with
          | error e => rw [hv] at h; cases h
          | ok action =>
            rw [hv] at h
            injection h with h2
            injection h2 with hout hd2
            subst hd2
            exact Or.inr ⟨hcondTrue, route, uri, action, hout.symm, rfl, hu,
              rfl, hv⟩

/-! ## C8 -/

/-- C8: constructing a resolved link fails whenever `rel` or `href` is
empty, constructing a resolved action fails whenever `name` or `href` is
empty, and every resolved link/action produced by a resolution call has
these mandatory fields non-empty. -/
theorem C8_mandatory_fields :
    (∀ (c : Option (List String)) (t : Option String) (r : List String)
       (hr : String) (ty : Option String),
       r = [] ∨ hr = "" →
       SirenLinkType.model_validate c t r hr ty =
         Except.error "Field rel and href are mandatory") ∧
    (∀ (c : Option (List String)) (t : Option String) (n : String)
       (m : Option String) (hr : String) (ty : Option String)
       (f : Option (List SirenFieldType)) (tm : Bool),
       n = "" ∨ hr = "" →
       SirenActionType.model_validate c t n m hr ty f tm =
         Except.error "Field name and href are mandatory") ∧
    (∀ (d : SirenLinkFor) (app : App) (values : ValuesContext)
       (l : SirenLinkType),
       d.call (some app) values = Except.ok (some l) →
       l.rel ≠ [] ∧ l.href ≠ "") ∧
    (∀ (d : SirenActionFor) (app : App) (values : ValuesContext)
       (a : SirenActionType) (d2 : SirenActionFor),
       d.call (some app) values = Except.ok (some a, d2) →
       a.name ≠ "" ∧ a.href ≠ "") := by
  refine ⟨?_, ?_, ?_, ?_⟩
  · intro c t r hr ty hcond
    unfold SirenLinkType.model_validate
    rw [if_pos hcond]
  · intro c t n m hr ty f tm hcond
    unfold SirenActionType.model_validate
    rw [if_pos hcond]
  · intro d app values l h
    rcases linkCall_ok_cases d app values (some l) h with
      ⟨hnone, _⟩ | ⟨_, route, uri, l2, hout, _, _, hv⟩
    · cases hnone
    · obtain ⟨hrel, hhref, hl⟩ :=
        link_model_validate_ok _ _ _ _ _ _ hv
      injection hout with hout2
      subst hout2
      rw [hl]
      exact ⟨hrel, hhref⟩
  · intro d app values a d2 h
    rcases actionCall_ok_cases d app values (some a) d2 h with
      ⟨hnone, _⟩ | ⟨_, route, uri, a2, hout, _, _, _, hv⟩
    · cases hnone
    · obtain ⟨hname, hhref, mv, hm, ha⟩ :=
        action_model_validate_ok _ _ _ _ _ _ _ _ _ hv
      injection hout with hout2
      subst hout2
      rw [ha]
      exact ⟨hname, hhref⟩

/-- The link the self-link descriptor resolves to on the example app. -/
def egSelfLinkResolved : SirenLinkType := { rel := ["self"], href := "/people" }

/-- Witness for C8: construction with an empty `rel` fails, and the
resolved self link of the example app has non-empty mandatory fields. -/
theorem C8_mandatory_fields_witness :
    SirenLinkType.model_validate Option.none Option.none [] "/x"
      Option.none = Except.error "Field rel and href are mandatory" ∧
    (egSelfLinkResolved.rel ≠ [] ∧ egSelfLinkResolved.href ≠ "") :=
  ⟨C8_mandatory_fields.1 _ _ _ _ _ (Or.inl rfl),
   C8_mandatory_fields.2.2.1 egSelfLink egApp [] egSelfLinkResolved (by rfl)⟩

/-! ## Projection lemmas for the in-place defaulting steps -/

theorem SirenActionFor.default_method_endpoint (d : SirenActionFor)
    (r : Route) : (d.default_method r).endpoint = d.endpoint := by
  unfold SirenActionFor.default_method; split <;> rfl

theorem SirenActionFor.default_method_param_values (d : SirenActionFor)
    (r : Route) : (d.default_method r).param_values = d.param_values := by
  unfold SirenActionFor.default_method; split <;> rfl

theorem SirenActionFor.default_method_templated (d : SirenActionFor)
    (r : Route) : (d.default_method r).templated = d.templated := by
  unfold SirenActionFor.default_method; split <;> rfl

theorem SirenActionFor.default_method_condition (d : SirenActionFor)
    (r : Route) : (d.default_method r).condition = d.condition := by
  unfold SirenActionFor.default_method; split <;> rfl

theorem SirenActionFor.default_method_populate (d : SirenActionFor)
    (r : Route) : (d.default_method r).populate_fields = d.populate_fields := by
  unfold SirenActionFor.default_method; split <;> rfl

theorem SirenActionFor.default_method_class (d : SirenActionFor)
    (r : Route) : (d.default_method r).class_ = d.class_ := by
  unfold SirenActionFor.default_method; split <;> rfl

theorem SirenActionFor.default_method_title (d : SirenActionFor)
    (r : Route) : (d.default_method r).title = d.title := by
  unfold SirenActionFor.default_method; split <;> rfl

theorem SirenActionFor.default_method_name (d : SirenActionFor)
    (r : Route) : (d.default_method r).name = d.name := by
  unfold SirenActionFor.default_method; split <;> rfl

theorem SirenActionFor.default_method_type (d : SirenActionFor)
    (r : Route) : (d.default_method r).type_ = d.type_ := by
  unfold SirenActionFor.default_method; split <;> rfl

theorem SirenActionFor.default_method_fields (d : SirenActionFor)
    (r : Route) : (d.default_method r).fields = d.fields := by
  unfold SirenActionFor.default_method; split <;> rfl

theorem SirenActionFor.default_fields_endpoint (d : SirenActionFor)
    (r : Route) (v : ValuesContext) :
    (d.default_fields r v).endpoint = d.endpoint := by
  unfold SirenActionFor.default_fields; split <;> rfl

theorem SirenActionFor.default_fields_param_values (d : SirenActionFor)
    (r : Route) (v : ValuesContext) :
    (d.default_fields r v).param_values = d.param_values := by
  unfold SirenActionFor.default_fields; split <;> rfl

theorem SirenActionFor.default_fields_templated (d : SirenActionFor)
    (r : Route) (v : ValuesContext) :
    (d.default_fields r v).templated = d.templated := by
  unfold SirenActionFor.default_fields; split <;> rfl

theorem SirenActionFor.default_fields_condition (d : SirenActionFor)
    (r : Route) (v : ValuesContext) :
    (d.default_fields r v).condition = d.condition := by
  unfold SirenActionFor.default_fields; split <;> rfl

theorem SirenActionFor.default_fields_populate (d : SirenActionFor)
    (r : Route) (v : ValuesContext) :
    (d.default_fields r v).populate_fields = d.populate_fields := by
  unfold SirenActionFor.default_fields; split <;> rfl

theorem SirenActionFor.default_fields_class (d : SirenActionFor)
    (r : Route) (v : ValuesContext) :
    (d.default_fields r v).class_ = d.class_ := by
  unfold SirenActionFor.default_fields; split <;> rfl

theorem SirenActionFor.default_fields_title (d : SirenActionFor)
    (r : Route) (v : ValuesContext) :
    (d.default_fields r v).title = d.title := by
  unfold SirenActionFor.default_fields; split <;> rfl

theorem SirenActionFor.default_fields_name (d : SirenActionFor)
    (r : Route) (v : ValuesContext) :
    (d.default_fields r v).name = d.name := by
  unfold SirenActionFor.default_fields; split <;> rfl

theorem SirenActionFor.default_fields_method (d : SirenActionFor)
    (r : Route) (v : ValuesContext) :
    (d.default_fields r v).method = d.method := by
  unfold SirenActionFor.default_fields; split <;> rfl

theorem SirenActionFor.default_fields_type (d : SirenActionFor)
    (r : Route) (v : ValuesContext) :
    (d.default_fields r v).type_ = d.type_ := by
  unfold SirenActionFor.default_fields; split <;> rfl

theorem SirenActionFor.default_type_endpoint (d : SirenActionFor) :
    d.default_type.endpoint = d.endpoint := by
  unfold SirenActionFor.default_type; split <;> rfl

theorem SirenActionFor.default_type_param_values (d : SirenActionFor) :
    d.default_type.param_values = d.param_values := by
  unfold SirenActionFor.default_type; split <;> rfl

theorem SirenActionFor.default_type_templated (d : SirenActionFor) :
    d.default_type.templated = d.templated := by
  unfold SirenActionFor.default_type; split <;> rfl

theorem SirenActionFor.default_type_condition (d : SirenActionFor) :
    d.default_type.condition = d.condition := by
  unfold SirenActionFor.default_type; split <;> rfl

theorem SirenActionFor.default_type_populate (d : SirenActionFor) :
    d.default_type.populate_fields = d.populate_fields := by
  unfold SirenActionFor.default_type; split <;> rfl

theorem SirenActionFor.default_type_class (d : SirenActionFor) :
    d.default_type.class_ = d.class_ := by
  unfold SirenActionFor.default_type; split <;> rfl

theorem SirenActionFor.default_type_title (d : SirenActionFor) :
    d.default_type.title = d.title := by
  unfold SirenActionFor.default_type; split <;> rfl

theorem SirenActionFor.default_type_name (d : SirenActionFor) :
    d.default_type.name = d.name := by
  unfold SirenActionFor.default_type; split <;> rfl

theorem SirenActionFor.default_type_method (d : SirenActionFor) :
    d.default_type.method = d.method := by
  unfold SirenActionFor.default_type; split <;> rfl

theorem SirenActionFor.default_type_fields (d : SirenActionFor) :
    d.default_type.fields = d.fields := by
  unfold SirenActionFor.default_type; split <;> rfl

/-- A templated link's URI is the raw route path, whatever the context. -/
theorem link_uri_templated (d : SirenLinkFor) (app : App)
    (values : ValuesContext) (route : Route) (h : d.templated = true) :
    d.get_uri_path app values route = Except.ok route.rawPath := by
  unfold SirenLinkFor.get_uri_path
  rw [if_pos h]

/-- A templated action's URI is the raw route path, whatever the context. -/
theorem action_uri_templated (d : SirenActionFor)
    (app : App) (values : ValuesContext) (route : Route)
    (h : d.templated = true) :
    d.get_uri_path app values route = Except.ok route.rawPath := by
  unfold SirenActionFor.get_uri_path
  rw [if_pos h]

/-! ## C5 -/

/-- C5: for every link or action marked `templated`, a successful
resolution yields an href equal to the target route's raw path template
(placeholders preserved), with no substitution against the values context —
in particular the href does not depend on the context. -/
theorem C5_templated_href_is_raw_template :
    (∀ (d : SirenLinkFor) (app : App) (values : ValuesContext)
       (l : SirenLinkType),
       d.templated = true →
       d.call (some app) values = Except.ok (some l) →
       ∃ route, get_route_from_app app d.endpoint = Except.ok route ∧
         l.href = route.rawPath) ∧
    (∀ (d : SirenActionFor) (app : App) (values : ValuesContext)
       (a : SirenActionType) (d2 : SirenActionFor),
       d.templated = true →
       d.call (some app) values = Except.ok (some a, d2) →
       ∃ route, get_route_from_app app d.endpoint = Except.ok route ∧
         a.href = route.rawPath) := by
  constructor
  · intro d app values l ht h
    rcases linkCall_ok_cases d app values (some l) h with
      ⟨hnone, _⟩ | ⟨_, route, uri, l2, hout, hroute, huri, hv⟩
    · cases hnone
    · refine ⟨route, hroute, ?_⟩
      obtain ⟨_, _, hl⟩ := link_model_validate_ok _ _ _ _ _ _ hv
      injection hout with hout2
      subst hout2
      rw [hl]
      rw [link_uri_templated d app (narrowToProperties values) route ht]
        at huri
      injection huri with h3
      exact h3.symm
  · intro d app values a d2 ht h
    rcases actionCall_ok_cases d app values (some a) d2 h with
      ⟨hnone, _⟩ | ⟨_, route, uri, a2, hout, hroute, huri, hd2, hv⟩
    · cases hnone
    · refine ⟨route, hroute, ?_⟩
      obtain ⟨_, _, mv, hm, ha⟩ :=
        action_model_validate_ok _ _ _ _ _ _ _ _ _ hv
      injection hout with hout2
      subst hout2
      rw [ha]
      have htm : (d.default_method route).templated = true := by
        rw [SirenActionFor.default_method_templated]; exact ht
      rw [action_uri_templated (d.default_method route) app values route
        htm] at huri
      injection huri with h3
      exact h3.symm

/-- The action `egFindAction` resolves to on the example app. -/
def egFindResolved : SirenActionType :=
  { name := "find", method := "GET", href := "/people/\x7bid_\x7d",
    fields := some [], templated := true }

/-- The descriptor state after `egFindAction`'s first call: the method has
been cached. -/
def egFindAfter : SirenActionFor :=
  { egFindAction with method := some "GET" }

/-- Witness for C5: the templated `find` action on the example app resolves
to the raw `/people/\x7bid_\x7d` template. -/
theorem C5_templated_href_witness :
    ∃ route,
      get_route_from_app egApp egFindAction.endpoint = Except.ok route ∧
      egFindResolved.href = route.rawPath :=
  C5_templated_href_is_raw_template.2 egFindAction egApp [] egFindResolved
    egFindAfter rfl (by rfl)

/-! ## C7 -/

/-- C7: with no explicit fields and a request-body schema on the target
route, the synthesized field list has one entry per schema field in
declared order — name copied, semantic type `text` for string-like declared
types, `number` for integer/float-like ones, `text` as the fallback — and
value initialized to the schema default; the `\x7bname: str, price: float\x7d`
schema yields `text` then `number`. -/
theorem C7_field_synthesis :
    (∀ (schema : List SchemaField) (i : Nat) (hi : i < schema.length),
       ∃ _ : i < (schema.map (fun f =>
           SirenFieldType.from_field_info f.name f)).length,
         ((schema.map (fun f =>
             SirenFieldType.from_field_info f.name f))[i]).name =
           (schema[i]).name ∧
         ((schema.map (fun f =>
             SirenFieldType.from_field_info f.name f))[i]).type_ =
           some (parse_type (schema[i]).typeRepr) ∧
         ((schema.map (fun f =>
             SirenFieldType.from_field_info f.name f))[i]).value =
           (schema[i]).default) ∧
    (∀ tr, strContains tr "str" = true → parse_type tr = "text") ∧
    (∀ tr, strContains tr "str" = false →
       strContains tr "float" = true ∨ strContains tr "int" = true →
       parse_type tr = "number") ∧
    (∀ tr, strContains tr "str" = false → strContains tr "float" = false →
       strContains tr "int" = false → parse_type tr = "text") ∧
    (get_route_from_app egApp "create_item").map
        (fun route => (egCreateAction.compute_fields route []).map
          (fun f => (f.name, f.type_))) =
      Except.ok [("name", some "text"), ("price", some "number")] := by
  refine ⟨?_, ?_, ?_, ?_, by rfl⟩
  · intro schema i hi
    refine ⟨by simpa using hi, ?_, ?_, ?_⟩ <;>
      simp [List.getElem_map, SirenFieldType.from_field_info]
  · intro tr h
    simp [parse_type, h]
  · intro tr h1 h2
    rcases h2 with h2 | h2 <;> simp [parse_type, h1, h2]
  · intro tr h1 h2 h3
    simp [parse_type, h1, h2, h3]

/-- Witness for C7: the two-field schema of the example app's
`create_item` route, at index 0. -/
theorem C7_field_synthesis_witness :
    ∃ _ : (0 : Nat) < ([⟨"name", "str", PyValue.none⟩,
        ⟨"price", "float", PyValue.none⟩].map (fun f =>
          SirenFieldType.from_field_info f.name f)).length,
      (([⟨"name", "str", PyValue.none⟩,
         ⟨"price", "float", PyValue.none⟩].map (fun f =>
           SirenFieldType.from_field_info f.name f))[0]).name =
        (([⟨"name", "str", PyValue.none⟩,
           ⟨"price", "float", PyValue.none⟩] : List SchemaField)[0]).name ∧
      (([⟨"name", "str", PyValue.none⟩,
         ⟨"price", "float", PyValue.none⟩].map (fun f =>
           SirenFieldType.from_field_info f.name f))[0]).type_ =
        some (parse_type (([⟨"name", "str", PyValue.none⟩,
           ⟨"price", "float", PyValue.none⟩] : List SchemaField)[0]).typeRepr) ∧
      (([⟨"name", "str", PyValue.none⟩,
         ⟨"price", "float", PyValue.none⟩].map (fun f =>
           SirenFieldType.from_field_info f.name f))[0]).value =
        (([⟨"name", "str", PyValue.none⟩,
           ⟨"price", "float", PyValue.none⟩] : List SchemaField)[0]).default :=
  C7_field_synthesis.1 [⟨"name", "str", PyValue.none⟩,
    ⟨"price", "float", PyValue.none⟩] 0 (by decide)

/-! ## C2 -/

/-- A truthy context entry makes its key visible to pre-population. -/
theorem ctxHas_of_truthy (v : ValuesContext) (k : String)
    (h : pyTruthy (ctxGet v k) = true) : ctxHas v k = true := by
  unfold ctxHas
  unfold ctxGet at h
  cases hl : List.lookup k v with
  | none => rw [hl] at h; exact absurd h (by decide)
  | some x => rfl

/-- A synthesized field with a numeric schema default. -/
def c2Field : SirenFieldType :=
  { name := "quantity", type_ := some "number", value := PyValue.int 5 }

/-- C2 counterexample: with pre-population enabled and the context entry
`0` present under the field's name, the resolved value is not that entry —
the falsy entry is discarded and the schema default is stringified
instead. -/
theorem C2_prepopulation_counterexample :
    ctxHas [("quantity", PyValue.int 0)] "quantity" = true ∧
    egCreateAction.populate_fields = true ∧
    egCreateAction.prepopulate_fields [c2Field]
        [("quantity", PyValue.int 0)] =
      [{ c2Field with value := PyValue.str "5" }] ∧
    PyValue.str "5" ≠ PyValue.int 0 :=
  ⟨rfl, rfl, by rfl, fun h => by cases h⟩

/-- C2 amended: with pre-population enabled, each field keeps its name,
type, class and title; its value becomes the string conversion of the
context entry when one is present and truthy (Python truthiness), and the
string conversion of the schema default otherwise. -/
theorem C2_prepopulation_amended (d : SirenActionFor)
    (fields : List SirenFieldType) (values : ValuesContext) (i : Nat)
    (hi : i < fields.length) (hpop : d.populate_fields = true) :
    ∃ _ : i < (d.prepopulate_fields fields values).length,
      ((d.prepopulate_fields fields values)[i]).name = (fields[i]).name ∧
      ((d.prepopulate_fields fields values)[i]).type_ = (fields[i]).type_ ∧
      ((d.prepopulate_fields fields values)[i]).class_ =
        (fields[i]).class_ ∧
      ((d.prepopulate_fields fields values)[i]).title = (fields[i]).title ∧
      ((d.prepopulate_fields fields values)[i]).value =
        (if ctxHas values (fields[i]).name = true ∧
            pyTruthy (ctxGet values (fields[i]).name) = true
         then PyValue.str (pyStr (ctxGet values (fields[i]).name))
         else PyValue.str (pyStr (fields[i]).value)) := by
  unfold SirenActionFor.prepopulate_fields
  simp only [hpop, Bool.not_true, Bool.false_eq_true, if_false]
  refine ⟨by simpa using hi, ?_⟩
  simp only [List.getElem_map]
  refine ⟨by trivial, by trivial, by trivial, by trivial, ?_⟩
  by_cases hc : pyTruthy (ctxGet values (fields[i]).name) = true
  · simp [pyOr, ctxHas_of_truthy _ _ hc, hc]
  · simp [pyOr, hc]

/-- The context used by the C2 witness. -/
def c2Ctx : ValuesContext := [("quantity", PyValue.str "7")]

/-- Witness for C2 (amended) at a concrete field and context. -/
theorem C2_prepopulation_amended_witness :
    ∃ _ : 0 < (egCreateAction.prepopulate_fields [c2Field] c2Ctx).length,
      ((egCreateAction.prepopulate_fields [c2Field] c2Ctx)[0]).name =
        (([c2Field])[0]).name ∧
      ((egCreateAction.prepopulate_fields [c2Field] c2Ctx)[0]).type_ =
        (([c2Field])[0]).type_ ∧
      ((egCreateAction.prepopulate_fields [c2Field] c2Ctx)[0]).class_ =
        (([c2Field])[0]).class_ ∧
      ((egCreateAction.prepopulate_fields [c2Field] c2Ctx)[0]).title =
        (([c2Field])[0]).title ∧
      ((egCreateAction.prepopulate_fields [c2Field] c2Ctx)[0]).value =
        (if ctxHas c2Ctx (([c2Field])[0]).name = true ∧
            pyTruthy (ctxGet c2Ctx (([c2Field])[0]).name) = true
         then PyValue.str (pyStr (ctxGet c2Ctx (([c2Field])[0]).name))
         else PyValue.str (pyStr (([c2Field])[0]).value)) :=
  C2_prepopulation_amended egCreateAction [c2Field] c2Ctx 0 (by decide) rfl

/-! ## C6 -/

/-- C6 counterexample: a link with no condition declared is nevertheless
omitted (resolution yields no output) when no application is registered,
so "a descriptor with no condition is always included" fails. -/
theorem C6_no_condition_counterexample :
    egSelfLink.condition = Option.none ∧
    egSelfLink.call Option.none [] = Except.ok Option.none :=
  ⟨rfl, rfl⟩

/-- C6 amended: a false condition makes the link/action yield no output and
the factory drops the entry entirely from the envelope (no null, no empty
placeholder); a descriptor with no condition is never omitted by the
condition check — with an app registered its resolution either fails or
yields the link/action, and only the no-app case omits it silently. -/
theorem C6_condition_gating_amended :
    (∀ (d : SirenLinkFor) (cond : ValuesContext → Bool) (app : Option App)
       (values : ValuesContext),
       d.condition = some cond → cond values = false →
       d.call app values = Except.ok Option.none) ∧
    (∀ (d : SirenActionFor) (cond : ValuesContext → Bool) (app : Option App)
       (values : ValuesContext),
       d.condition = some cond → cond values = false →
       d.call app values = Except.ok (Option.none, d)) ∧
    (∀ (d : SirenLinkFor) (cond : ValuesContext → Bool) (app : Option App)
       (props : ValuesContext) (rest : List SirenLinkFor),
       d.condition = some cond → cond props = false →
       validate_factory_links app props (d :: rest) =
         validate_factory_links app props rest) ∧
    (∀ (d : SirenLinkFor) (app : App) (values : ValuesContext),
       d.condition = Option.none →
       d.call (some app) values ≠ Except.ok Option.none) ∧
    (∀ (d : SirenActionFor) (app : App) (values : ValuesContext)
       (d2 : SirenActionFor),
       d.condition = Option.none →
       d.call (some app) values ≠ Except.ok (Option.none, d2)) := by
  have hlink : ∀ (d : SirenLinkFor) (cond : ValuesContext → Bool)
      (app : Option App) (values : ValuesContext),
      d.condition = some cond → cond values = false →
      d.call app values = Except.ok Option.none := by
    intro d cond app values hc hv
    cases app with
    | none => rfl
    | some app =>
      unfold SirenLinkFor.call
      dsimp only
      rw [hc]
      simp [hv]
  refine ⟨hlink, ?_, ?_, ?_, ?_⟩
  · intro d cond app values hc hv
    cases app with
    | none => rfl
    | some app =>
      unfold SirenActionFor.call
      dsimp only
      rw [hc]
      simp [hv]
  · intro d cond app props rest hc hv
    have hcall := hlink d cond app props hc hv
    have hstep : validate_factory_links app props (d :: rest) =
        match d.call app props with
        | Except.error e => Except.error e
        | Except.ok element =>
          match validate_factory_links app props rest with
          | Except.error e => Except.error e
          | Except.ok tail =>
            match element with
            | Option.none => Except.ok tail
            | some link => Except.ok (link :: tail) := rfl
    rw [hstep, hcall]
    cases hrest : validate_factory_links app props rest with
    | error e => rfl
    | ok tail => rfl
  · intro d app values hc h
    rcases linkCall_ok_cases d app values Option.none h with
      ⟨_, cond, hcond, _⟩ | ⟨_, route, uri, l, hout, _⟩
    · rw [hc] at hcond; cases hcond
    · cases hout
  · intro d app values d2 hc h
    rcases actionCall_ok_cases d app values Option.none d2 h with
      ⟨_, _, cond, hcond, _⟩ | ⟨_, route, uri, a, hout, _⟩
    · rw [hc] at hcond; cases hcond
    · cases hout

/-- A link guarded by a `not is_locked` condition, as in the test app. -/
def egLockedLink : SirenLinkFor :=
  { endpoint := "read_people", rel := ["addItem"],
    condition := some (fun values => !pyTruthy (ctxGet values "is_locked")) }

/-- Witness for C6 (amended): for a locked person the guarded link yields
no output. -/
theorem C6_condition_gating_witness :
    egLockedLink.call (some egApp) [("is_locked", PyValue.bool true)] =
      Except.ok Option.none :=
  C6_condition_gating_amended.1 egLockedLink
    (fun values => !pyTruthy (ctxGet values "is_locked")) (some egApp)
    [("is_locked", PyValue.bool true)] rfl rfl

/-! ## C1 -/

/-- Inverting a passing self-link check: the links are empty or one has
`rel == ["self"]`. -/
theorem validate_has_self_link_ok (links : List SirenLinkType)
    (h : validate_has_self_link links = Except.ok ()) :
    links = [] ∨ ∃ l ∈ links, l.rel = ["self"] := by
  unfold validate_has_self_link at h
  split at h
  · next he => exact Or.inl (by simpa using he)
  · next he =>
    split at h
    · next hany =>
      right
      obtain ⟨l, hmem, hrel⟩ := List.any_eq_true.mp hany
      exact ⟨l, hmem, by simpa using hrel⟩
    · cases h

/-- The self-link check fails on a non-empty link list with no self
link. -/
theorem validate_has_self_link_error (links : List SirenLinkType)
    (hne : links ≠ []) (hall : ∀ l ∈ links, l.rel ≠ ["self"]) :
    validate_has_self_link links =
      Except.error
        "If links are present, a link with rel self must be present" := by
  unfold validate_has_self_link
  have h1 : links.isEmpty = false := by simpa using hne
  have h2 : links.any (fun link => link.rel == ["self"]) = false := by
    rw [List.any_eq_false]
    intro l hl
    simpa using hall l hl
  simp [h1, h2]

/-- The model declaring two identical self links. -/
def c1Model : SirenModelDecl :=
  { properties := [], links := [egSelfLink, egSelfLink], actions := [] }

/-- C1 counterexample: a Siren entity with two resolved `self` links passes
resolution — the engine only checks for at least one self link, so "exactly
one" fails. -/
theorem C1_self_link_counterexample :
    (c1Model.resolve (some egApp)).map
        (fun p => p.1.links.countP (fun l => l.rel == ["self"])) =
      Except.ok 2 := by rfl

/-- C1 amended: when resolution of a Siren entity succeeds and its resolved
links are non-empty, at least one resolved link has `rel == ["self"]`; and
when the resolved links are non-empty with no self link among them,
resolution fails with the missing-self-link error. -/
theorem C1_self_link_amended :
    (∀ (m : SirenModelDecl) (app : Option App) (env : SirenEnvelope)
       (m2 : SirenModelDecl),
       m.resolve app = Except.ok (env, m2) →
       env.links = [] ∨ ∃ l ∈ env.links, l.rel = ["self"]) ∧
    (∀ (m : SirenModelDecl) (app : Option App)
       (links : List SirenLinkType),
       validate_factory_links app m.properties m.links = Except.ok links →
       links ≠ [] → (∀ l ∈ links, l.rel ≠ ["self"]) →
       m.resolve app =
         Except.error
           "If links are present, a link with rel self must be present") := by
  constructor
  · intro m app env m2 h
    unfold SirenModelDecl.resolve at h
    cases hl : validate_factory_links app m.properties m.links with
    | error e => rw [hl] at h; cases h
    | ok links =>
      rw [hl] at h
      dsimp only at h
      cases hs : validate_has_self_link links with
      | error e => rw [hs] at h; cases h
      | ok u =>
        rw [hs] at h
        dsimp only at h
        cases ha : validate_factory_actions app m.properties m.actions with
        | error e => rw [ha] at h; cases h
        | ok pr =>
          rw [ha] at h
          dsimp only at h
          injection h with h2
          injection h2 with henv hm2
          rw [← henv]
          cases u
          exact validate_has_self_link_ok links hs
  · intro m app links hl hne hall
    unfold SirenModelDecl.resolve
    rw [hl]
    dsimp only
    rw [validate_has_self_link_error links hne hall]

/-- The model declaring a single self link. -/
def c1OkModel : SirenModelDecl :=
  { properties := [], links := [egSelfLink], actions := [] }

/-- The envelope the single-self-link model resolves to. -/
def c1Env : SirenEnvelope :=
  { properties := [], links := [egSelfLinkResolved], actions := [] }

/-- Witness for C1 (amended): the single-self-link model resolves and its
envelope carries a self link. -/
theorem C1_self_link_witness :
    c1Env.links = [] ∨ ∃ l ∈ c1Env.links, l.rel = ["self"] :=
  C1_self_link_amended.1 c1OkModel (some egApp) c1Env c1OkModel (by rfl)

/-! ## C3 -/

/-- C3 counterexample: invoking an action descriptor changes its stored
state — before the call no method and no fields are stored; after the call
the resolved method and the two synthesized fields are cached on the
descriptor. -/
theorem C3_purity_counterexample :
    egCreateAction.method = Option.none ∧
    (egCreateAction.call (some egApp) []).map (fun p => p.2.method) =
      Except.ok (some "POST") ∧
    egCreateAction.fields.length = 0 ∧
    (egCreateAction.call (some egApp) []).map (fun p => p.2.fields.length) =
      Except.ok 2 :=
  ⟨rfl, by rfl, rfl, by rfl⟩

/-- C3 amended: a successful action resolution leaves the values context
untouched and preserves the descriptor's endpoint, parameter templates,
templated flag, condition, populate flag, class, title and name; only the
cached method, synthesized fields and inferred media type may change
(link resolution stores nothing at all). -/
theorem C3_resolution_frame_amended (d : SirenActionFor) (app : Option App)
    (values : ValuesContext) (out : Option SirenActionType)
    (d2 : SirenActionFor) (h : d.call app values = Except.ok (out, d2)) :
    d2.endpoint = d.endpoint ∧ d2.param_values = d.param_values ∧
    d2.templated = d.templated ∧ d2.condition = d.condition ∧
    d2.populate_fields = d.populate_fields ∧ d2.class_ = d.class_ ∧
    d2.title = d.title ∧ d2.name = d.name := by
  cases app with
  | none =>
    rw [show d.call Option.none values = Except.ok (Option.none, d)
      from rfl] at h
    injection h with h2
    injection h2 with hout hd2
    rw [← hd2]
    exact ⟨rfl, rfl, rfl, rfl, rfl, rfl, rfl, rfl⟩
  | some app =>
    rcases actionCall_ok_cases d app values out d2 h with
      ⟨_, hd2, _⟩ | ⟨_, route, uri, a, _, _, _, hd2, _⟩
    · subst hd2
      exact ⟨rfl, rfl, rfl, rfl, rfl, rfl, rfl, rfl⟩
    · subst hd2
      refine ⟨?_, ?_, ?_, ?_, ?_, ?_, ?_, ?_⟩ <;>
        simp [SirenActionFor.default_type_endpoint,
          SirenActionFor.default_type_param_values,
          SirenActionFor.default_type_templated,
          SirenActionFor.default_type_condition,
          SirenActionFor.default_type_populate,
          SirenActionFor.default_type_class,
          SirenActionFor.default_type_title,
          SirenActionFor.default_type_name,
          SirenActionFor.default_fields_endpoint,
          SirenActionFor.default_fields_param_values,
          SirenActionFor.default_fields_templated,
          SirenActionFor.default_fields_condition,
          SirenActionFor.default_fields_populate,
          SirenActionFor.default_fields_class,
          SirenActionFor.default_fields_title,
          SirenActionFor.default_fields_name,
          SirenActionFor.default_method_endpoint,
          SirenActionFor.default_method_param_values,
          SirenActionFor.default_method_templated,
          SirenActionFor.default_method_condition,
          SirenActionFor.default_method_populate,
          SirenActionFor.default_method_class,
          SirenActionFor.default_method_title,
          SirenActionFor.default_method_name]

/-- The synthesized (and pre-populated) fields of the `create_item` action
resolved against an empty context. -/
def c3Fields : List SirenFieldType :=
  [ { name := "name", type_ := some "text", value := PyValue.str "None" },
    { name := "price", type_ := some "number",
      value := PyValue.str "None" } ]

/-- The descriptor state after the `create_item` action's first call. -/
def c3After : SirenActionFor :=
  { endpoint := "create_item", name := "create", method := some "POST",
    type_ := some "application/x-www-form-urlencoded", fields := c3Fields }

/-- The action the `create_item` descriptor resolves to on an empty
context. -/
def c3Resolved : SirenActionType :=
  { name := "create", method := "POST", href := "/items",
    type_ := some "application/x-www-form-urlencoded",
    fields := some c3Fields }

/-- Witness for C3 (amended): the static components of the `create_item`
descriptor survive its first call. -/
theorem C3_resolution_frame_witness :
    c3After.endpoint = egCreateAction.endpoint ∧
    c3After.param_values = egCreateAction.param_values ∧
    c3After.templated = egCreateAction.templated ∧
    c3After.condition = egCreateAction.condition ∧
    c3After.populate_fields = egCreateAction.populate_fields ∧
    c3After.class_ = egCreateAction.class_ ∧
    c3After.title = egCreateAction.title ∧
    c3After.name = egCreateAction.name :=
  C3_resolution_frame_amended egCreateAction (some egApp) []
    (some c3Resolved) c3After (by rfl)

/-! ## C4: stability of the action-call caching -/

/-- Helper: `_get_uri_path` reads only the `templated` flag, the parameter
templates and the endpoint of the descriptor. -/
theorem SirenActionFor.get_uri_path_congr (d1 d2 : SirenActionFor)
    (app : App) (v : ValuesContext) (r : Route)
    (h1 : d1.templated = d2.templated)
    (h2 : d1.param_values = d2.param_values)
    (h3 : d1.endpoint = d2.endpoint) :
    d1.get_uri_path app v r = d2.get_uri_path app v r := by
  unfold SirenActionFor.get_uri_path
  rw [h1, h2, h3]

/-- Helper: `_compute_fields` reads only the `populate_fields` flag of the
descriptor. -/
theorem SirenActionFor.compute_fields_congr (d1 d2 : SirenActionFor)
    (r : Route) (v : ValuesContext)
    (h : d1.populate_fields = d2.populate_fields) :
    d1.compute_fields r v = d2.compute_fields r v := by
  unfold SirenActionFor.compute_fields SirenActionFor.prepopulate_fields
  rw [h]

/-- Updating `method` with its current value is the identity. -/
theorem SirenActionFor.eta_method (s : SirenActionFor) (x : Option String)
    (h : s.method = x) : { s with method := x } = s := by
  cases s
  cases h
  rfl

/-- Updating `fields` with its current value is the identity. -/
theorem SirenActionFor.eta_fields (s : SirenActionFor)
    (x : List SirenFieldType) (h : s.fields = x) :
    { s with fields := x } = s := by
  cases s
  cases h
  rfl

/-- A descriptor already carrying the method that `default_method` would
store is left unchanged by it. -/
theorem SirenActionFor.default_method_stable (d s : SirenActionFor)
    (r : Route) (h : s.method = (d.default_method r).method) :
    s.default_method r = s := by
  unfold SirenActionFor.default_method at h ⊢
  by_cases hd : optStrFalsy d.method = true
  · rw [if_pos hd] at h
    have h2 : s.method = r.methods.head? := h
    by_cases hs : optStrFalsy s.method = true
    · rw [if_pos hs]
      exact SirenActionFor.eta_method s _ h2
    · rw [if_neg hs]
  · rw [if_neg hd] at h
    have hs : ¬ optStrFalsy s.method = true := by rw [h]; exact hd
    rw [if_neg hs]

/-- A descriptor already carrying the fields that `default_fields` would
store (and the same populate flag) is left unchanged by it. -/
theorem SirenActionFor.default_fields_stable (d s : SirenActionFor)
    (r : Route) (v : ValuesContext)
    (hf : s.fields = (d.default_fields r v).fields)
    (hp : s.populate_fields = d.populate_fields) :
    s.default_fields r v = s := by
  unfold SirenActionFor.default_fields at hf ⊢
  by_cases hd : d.fields.isEmpty = true
  · rw [if_pos hd] at hf
    have hf2 : s.fields = d.compute_fields r v := hf
    by_cases hs : s.fields.isEmpty = true
    · rw [if_pos hs]
      rw [SirenActionFor.compute_fields_congr s d r v hp]
      exact SirenActionFor.eta_fields s _ hf2
    · rw [if_neg hs]
  · rw [if_neg hd] at hf
    have hs : ¬ s.fields.isEmpty = true := by rw [hf]; exact hd
    rw [if_neg hs]

/-- A descriptor already carrying the media type and fields that
`default_type` would leave behind is left unchanged by it. -/
theorem SirenActionFor.default_type_stable (d s : SirenActionFor)
    (hty : s.type_ = d.default_type.type_)
    (hfld : s.fields = d.default_type.fields) :
    s.default_type = s := by
  unfold SirenActionFor.default_type at hty hfld ⊢
  by_cases hd : (optStrFalsy d.type_ && ! d.fields.isEmpty) = true
  · rw [if_pos hd] at hty hfld
    have hty2 : s.type_ = some "application/x-www-form-urlencoded" := hty
    have hs : ¬ (optStrFalsy s.type_ && ! s.fields.isEmpty) = true := by
      rw [hty2]
      simp [optStrFalsy]
    rw [if_neg hs]
  · rw [if_neg hd] at hty hfld
    have hty2 : s.type_ = d.type_ := hty
    have hfld2 : s.fields = d.fields := hfld
    have hs : ¬ (optStrFalsy s.type_ && ! s.fields.isEmpty) = true := by
      rw [hty2, hfld2]; exact hd
    rw [if_neg hs]

/-- Forward construction of a successful `SirenActionFor.__call__`: a
passing condition, a found route, a built URI and a validated action
assemble into the call's result. -/
theorem SirenActionFor.call_build (d : SirenActionFor) (app : App)
    (values : ValuesContext) (route : Route) (uri : String)
    (a : SirenActionType)
    (hcond : match d.condition with
      | some cond => cond values = true
      | Option.none => True)
    (hroute : get_route_from_app app d.endpoint = Except.ok route)
    (huri : (d.default_method route).get_uri_path app values route =
      Except.ok uri)
    (hv : SirenActionType.model_validate
      (((d.default_method route).default_fields route values).default_type).class_
      (((d.default_method route).default_fields route values).default_type).title
      (((d.default_method route).default_fields route values).default_type).name
      (((d.default_method route).default_fields route values).default_type).method
      uri
      (((d.default_method route).default_fields route values).default_type).type_
      (some (((d.default_method route).default_fields route values).default_type).fields)
      (((d.default_method route).default_fields route values).default_type).templated
      = Except.ok a) :
    d.call (some app) values =
      Except.ok (some a,
        ((d.default_method route).default_fields route values).default_type) := by
  unfold SirenActionFor.call
  dsimp only
  have hcondFalse : (match d.condition with
      | some cond => ! cond values
      | Option.none => false) = false := by
    cases hc : d.condition with
    | none => rfl
    | some cond =>
      rw [hc] at hcond
      simp [hcond]
  rw [hcondFalse]
  simp only [Bool.false_eq_true, if_false]
  rw [hroute]
  dsimp only
  rw [huri]
  dsimp only
  rw [hv]

/-- The descriptor returned by a successful action call is a fixpoint: the
same call on it returns the same output and leaves it unchanged. -/
theorem SirenActionFor.call_stable (d : SirenActionFor) (app : Option App)
    (values : ValuesContext) (out : Option SirenActionType)
    (d2 : SirenActionFor) (h : d.call app values = Except.ok (out, d2)) :
    d2.call app values = Except.ok (out, d2) := by
  cases app with
  | none =>
    rw [show d.call Option.none values = Except.ok (Option.none, d)
      from rfl] at h
    injection h with h2
    injection h2 with hout hd2
    subst hd2
    rw [← hout]
    rfl
  | some app =>
    rcases actionCall_ok_cases d app values out d2 h with
      ⟨hout, hd2, cond, hc, hcv⟩ |
      ⟨hcondTrue, route, uri, a, hout, hroute, huri, hd2, hv⟩
    · subst hd2
      subst hout
      unfold SirenActionFor.call
      dsimp only
      rw [hc]
      simp [hcv]
    · -- the main path: d2 is the fully defaulted descriptor
      have hep : d2.endpoint = d.endpoint := by
        rw [hd2]
        simp [SirenActionFor.default_type_endpoint,
          SirenActionFor.default_fields_endpoint,
          SirenActionFor.default_method_endpoint]
      have hcond2 : d2.condition = d.condition := by
        rw [hd2]
        simp [SirenActionFor.default_type_condition,
          SirenActionFor.default_fields_condition,
          SirenActionFor.default_method_condition]
      have hstepA : d2.default_method route = d2 := by
        apply SirenActionFor.default_method_stable d d2 route
        rw [hd2]
        simp [SirenActionFor.default_type_method,
          SirenActionFor.default_fields_method]
      have huri2 : (d2.default_method route).get_uri_path app values route =
          Except.ok uri := by
        rw [hstepA]
        rw [SirenActionFor.get_uri_path_congr d2 (d.default_method route)
          app values route
          (by rw [hd2]
              simp [SirenActionFor.default_type_templated,
                SirenActionFor.default_fields_templated])
          (by rw [hd2]
              simp [SirenActionFor.default_type_param_values,
                SirenActionFor.default_fields_param_values])
          (by rw [hep]
              rw [SirenActionFor.default_method_endpoint])]
        exact huri
      have hstepC : d2.default_fields route values = d2 := by
        apply SirenActionFor.default_fields_stable (d.default_method route)
          d2 route values
        · rw [hd2]
          simp [SirenActionFor.default_type_fields]
        · rw [hd2]
          simp [SirenActionFor.default_type_populate,
            SirenActionFor.default_fields_populate]
      have hstepD : d2.default_type = d2 := by
        apply SirenActionFor.default_type_stable
          ((d.default_method route).default_fields route values) d2
        · rw [hd2]
        · rw [hd2]
      have hs2 :
          ((d2.default_method route).default_fields route values).default_type
            = d2 := by
        rw [hstepA, hstepC, hstepD]
      subst hout
      have hcondTrue2 : (match d2.condition with
          | some cond => cond values = true
          | Option.none => True) := by
        rw [hcond2]
        exact hcondTrue
      have hroute2 : get_route_from_app app d2.endpoint = Except.ok route := by
        rw [hep]
        exact hroute
      have hb := SirenActionFor.call_build d2 app values route uri a
        hcondTrue2 hroute2 huri2 (by rw [hs2]; exact hv)
      rw [hs2] at hb
      exact hb

/-- Step equation for `validate_factory_actions` on a cons cell. -/
theorem validate_factory_actions_cons (app : Option App)
    (props : ValuesContext) (a : SirenActionFor)
    (rest : List SirenActionFor) :
    validate_factory_actions app props (a :: rest) =
      match a.call app props with
      | Except.error e => Except.error e
      | Except.ok (element, a2) =>
        match validate_factory_actions app props rest with
        | Except.error e => Except.error e
        | Except.ok (tail, rest2) =>
          match element with
          | Option.none => Except.ok (tail, a2 :: rest2)
          | some act => Except.ok (act :: tail, a2 :: rest2) := rfl

/-- The action-descriptor list the factory returns is a fixpoint of the
factory. -/
theorem validate_factory_actions_stable (app : Option App)
    (props : ValuesContext) :
    ∀ (acts : List SirenActionFor) (res : List SirenActionType)
      (after : List SirenActionFor),
      validate_factory_actions app props acts = Except.ok (res, after) →
      validate_factory_actions app props after = Except.ok (res, after) := by
  intro acts
  induction acts with
  | nil =>
    intro res after h
    rw [show validate_factory_actions app props [] = Except.ok ([], [])
      from rfl] at h
    injection h with h2
    injection h2 with hres hafter
    subst hres
    subst hafter
    rfl
  | cons a rest ih =>
    intro res after h
    rw [validate_factory_actions_cons] at h
    cases ha : a.call app props with
    | error e => rw [ha] at h; cases h
    | ok pr =>
      obtain ⟨element, a2⟩ := pr
      rw [ha] at h
      dsimp only at h
      cases hrest : validate_factory_actions app props rest with
      | error e => rw [hrest] at h; cases h
      | ok pr2 =>
        obtain ⟨tail, rest2⟩ := pr2
        rw [hrest] at h
        dsimp only at h
        have ha2 : a2.call app props = Except.ok (element, a2) :=
          SirenActionFor.call_stable a app props element a2 ha
        have hrest2 : validate_factory_actions app props rest2 =
            Except.ok (tail, rest2) := ih tail rest2 hrest
        cases element with
        | none =>
          injection h with h2
          injection h2 with hres hafter
          subst hres
          subst hafter
          rw [validate_factory_actions_cons, ha2]
          dsimp only
          rw [hrest2]
        | some act =>
          injection h with h2
          injection h2 with hres hafter
          subst hres
          subst hafter
          rw [validate_factory_actions_cons, ha2]
          dsimp only
          rw [hrest2]

/-! ## C4 -/

/-- C4: resolving the model instance reached after a successful resolution,
with the values context unchanged (and every condition a pure function),
succeeds and serializes to a byte-identical envelope; the descriptor state
is a fixpoint. -/
theorem C4_resolution_idempotent (m : SirenModelDecl) (app : Option App)
    (env : SirenEnvelope) (m2 : SirenModelDecl)
    (h : m.resolve app = Except.ok (env, m2)) :
    ∃ env2 m3, m2.resolve app = Except.ok (env2, m3) ∧
      env2.serialize = env.serialize ∧ m3 = m2 := by
  unfold SirenModelDecl.resolve at h
  cases hl : validate_factory_links app m.properties m.links with
  | error e => rw [hl] at h; cases h
  | ok links =>
    rw [hl] at h
    dsimp only at h
    cases hs : validate_has_self_link links with
    | error e => rw [hs] at h; cases h
    | ok u =>
      rw [hs] at h
      dsimp only at h
      cases ha : validate_factory_actions app m.properties m.actions with
      | error e => rw [ha] at h; cases h
      | ok pr =>
        obtain ⟨res, after⟩ := pr
        rw [ha] at h
        dsimp only at h
        injection h with h2
        injection h2 with henv hm2
        refine ⟨env, m2, ?_, rfl, rfl⟩
        have hstable := validate_factory_actions_stable app m.properties
          m.actions res after ha
        rw [← hm2]
        unfold SirenModelDecl.resolve
        dsimp only
        rw [hl]
        dsimp only
        rw [hs]
        dsimp only
        rw [hstable]
        dsimp only
        rw [henv]

/-- A model with a self link and the `create_item` action. -/
def c4Model : SirenModelDecl :=
  { properties := [], links := [egSelfLink], actions := [egCreateAction] }

/-- The model state after the first resolution of `c4Model`. -/
def c4Model2 : SirenModelDecl :=
  { properties := [], links := [egSelfLink], actions := [c3After] }

/-- The envelope `c4Model` resolves to. -/
def c4Env : SirenEnvelope :=
  { properties := [], links := [egSelfLinkResolved], actions := [c3Resolved] }

/-- Witness for C4 at the concrete model: re-resolving after the first
resolution reproduces the serialized envelope. -/
theorem C4_resolution_idempotent_witness :
    ∃ env2 m3, c4Model2.resolve (some egApp) = Except.ok (env2, m3) ∧
      env2.serialize = c4Env.serialize ∧ m3 = c4Model2 :=
  C4_resolution_idempotent c4Model (some egApp) c4Env c4Model2 (by rfl)

/-- Witness for C9 at the one-action response: the `"update"` query matches
the `update_person` action by substring. -/
theorem C9_get_siren_action_substring_witness :
    strContains egUpdateAction.name "update" = true ∧
    ∃ pre post, [egUpdateAction] = pre ++ egUpdateAction :: post ∧
      ∀ b ∈ pre, strContains b.name "update" = false :=
  C9_get_siren_action_substring.2.1 [egUpdateAction] "update" egUpdateAction
    (by rfl)
